import Mathlib

/-!
Verification of the runtime instrumentation layer in
src/src/canary/metta_python_patcher.py against its specification.

The development shallowly embeds the parts of the source the claims touch:
Python values become the inductive PyVal, the Observer publish/subscribe hub
becomes an association list of callback lists, the wrapper closures produced
by the MonkeyPatcher become Lean functions paired with an original-invoked
flag, and member classification becomes functions over a small descriptor
model. Line numbers in comments refer to metta_python_patcher.py.
-/

set_option autoImplicit false

namespace MettaPatcher

/-- Model of a Python runtime value, restricted to the shapes the patcher
manipulates: None, booleans, integers, strings, tuples, string-keyed dicts,
module objects, and otherwise-opaque objects identified by a numeral. -/
inductive PyVal where
  | none
  | bool (b : Bool)
  | int (n : Int)
  | str (s : String)
  | tuple (items : List PyVal)
  | dict (entries : List (String × PyVal))
  | module (modName : String)
  | obj (id : Nat)

/-- Python truthiness for the modelled values: None, False, 0, the empty
string and empty containers are falsy, everything else truthy. -/
def pyTruthy : PyVal → Bool
  | PyVal.none => false
  | PyVal.bool b => b
  | PyVal.int n => !(n == 0)
  | PyVal.str s => !(s == "")
  | PyVal.tuple items => !items.isEmpty
  | PyVal.dict entries => !entries.isEmpty
  | PyVal.module _ => true
  | PyVal.obj _ => true

/-- True exactly when the value is the Python None object. -/
def isNone : PyVal → Bool
  | PyVal.none => true
  | _ => false

/-- Model of isinstance(v, types.ModuleType). -/
def isModuleV : PyVal → Bool
  | PyVal.module _ => true
  | _ => false

/-- Model of d.get(k, dflt) on a string-keyed dict. -/
def dictGetD (d : List (String × PyVal)) (k : String) (dflt : PyVal) : PyVal :=
  match d.find? (fun kv => kv.1 == k) with
  | some kv => kv.2
  | Option.none => dflt

/-- Model of d[k] = v on a string-keyed dict: replace the existing binding or
append a new one. -/
def dictSet : List (String × PyVal) → String → PyVal → List (String × PyVal)
  | [], k, v => [(k, v)]
  | (k1, v1) :: rest, k, v =>
    if k1 == k then (k, v) :: rest else (k1, v1) :: dictSet rest k v

/-- Model of str(v) for the values that ever reach the denylist check in
Observer.notify; in every call site of notify, the inspected element is the
member-name string. Composite values get placeholder renderings. -/
def pyStr : PyVal → String
  | PyVal.none => "None"
  | PyVal.bool true => "True"
  | PyVal.bool false => "False"
  | PyVal.int n => toString n
  | PyVal.str s => s
  | PyVal.tuple _ => "tuple"
  | PyVal.dict _ => "dict"
  | PyVal.module modName => modName
  | PyVal.obj _ => "object"

/-- Bool test that the first list is an initial segment of the second. -/
def prefixCheck : List Char → List Char → Bool
  | [], _ => true
  | _ :: _, [] => false
  | a :: as, b :: bs => a == b && prefixCheck as bs

/-- Model of str.startswith(pre): executable over the character lists. -/
def startsWithM (s pre : String) : Bool :=
  prefixCheck pre.data s.data

/-- Model of str.endswith(suf): executable over the character lists. -/
def endsWithM (s suf : String) : Bool :=
  prefixCheck suf.data.reverse s.data.reverse

/-- Model of the Python expression c in s for a single character. -/
def containsChar (s : String) (c : Char) : Bool :=
  s.data.contains c

/-- Code-point lexicographic string order, the order Python compares
strings by; executable over the character lists. -/
def charListLe : List Char → List Char → Bool
  | [], _ => true
  | _ :: _, [] => false
  | a :: as, b :: bs => if a == b then charListLe as bs else decide (a < b)

/-- String order used when sorting member names. -/
def strLeM (a b : String) : Bool :=
  charListLe a.data b.data

/-- Splitting a character list at every occurrence of a separator char. -/
def splitCharAux (c : Char) : List Char → List Char → List (List Char)
  | [], acc => [acc.reverse]
  | x :: xs, acc =>
    if x == c then acc.reverse :: splitCharAux c xs []
    else splitCharAux c xs (x :: acc)

/-- Strip leading and trailing whitespace, the effect of str.strip(). -/
def pyStrip (s : String) : String :=
  String.mk (((s.data.dropWhile Char.isWhitespace).reverse.dropWhile
    Char.isWhitespace).reverse)

/-- Bool test that the first list occurs contiguously inside the second. -/
def infixCheck (needle : List Char) : List Char → Bool
  | [] => prefixCheck needle []
  | b :: t => prefixCheck needle (b :: t) || infixCheck needle t

/-- Model of the Python expression needle in hay for strings. -/
def strContainsSub (hay needle : String) : Bool :=
  infixCheck needle.data hay.data

/-- The three substrings notify refuses to dispatch for (lines 190-192). -/
def denySubstrings : List String := ["tokenizer", "metta_err_str", "_free"]

/-- Lines 189-192 of Observer.notify: with more than one positional argument,
skip dispatch when str(args_list[1]) contains a denylisted substring. -/
def denyHit (args : List PyVal) : Bool :=
  if args.length > 1 then
    denySubstrings.any (fun s => strContainsSub (pyStr (args.getD 1 PyVal.none)) s)
  else
    false

/-- A subscriber callback: receives the normalized positional payload and
returns a Python value (None meaning no override). -/
def Cb := List PyVal → PyVal

/-- The Observer.observers dict: event keys mapped to callback lists. -/
def ObsMap := List (String × List Cb)

/-- Append a callback under a key, creating the key with a fresh list when it
is absent (lines 174-177 of Observer.subscribe). -/
def addKey : ObsMap → String → Cb → ObsMap
  | [], k, cb => [(k, [cb])]
  | (k1, cbs) :: rest, k, cb =>
    if k1 == k then (k1, cbs ++ [cb]) :: rest else (k1, cbs) :: addKey rest k cb

/-- Observer.subscribe (lines 172-177): register callback under the key
level ++ "_" ++ event_type, appended after existing subscribers. -/
def subscribe (observers : ObsMap) (eventType : String) (callback : Cb)
    (level : String) : ObsMap :=
  addKey observers (level ++ "_" ++ eventType) callback

/-- Lookup of an event key in the observers dict. -/
def obsLookup : ObsMap → String → Option (List Cb)
  | [], _ => Option.none
  | (k1, cbs) :: rest, k => if k1 == k then some cbs else obsLookup rest k

/-- The dispatch loop of Observer.notify (lines 204-207): invoke callbacks in
list order; the first non-None result stops the loop. Returns the first
non-None result (if any) together with how many callbacks were invoked. -/
def runCallbacks : List Cb → List PyVal → Option PyVal × Nat
  | [], _ => (Option.none, 0)
  | c :: rest, args =>
    let r := c args
    if isNone r then
      let p := runCallbacks rest args
      (p.1, p.2 + 1)
    else
      (some r, 1)

/-- The error Observer.notify can raise: indexing an empty payload. -/
inductive NErr where
  | indexError
deriving DecidableEq

/-- Lines 194-197 of Observer.notify: null out a leading module reference. -/
def normalizeArgs : List PyVal → List PyVal
  | [] => []
  | a :: rest => (if isModuleV a then PyVal.none else a) :: rest

/-- Observer.notify (lines 179-210). The global suspend_trace flag and the
observers dict are explicit parameters; the func parameter is carried but,
as in the source, never used by the body. The second component counts how
many subscribed callbacks were invoked (instrumentation for the ordering and
reentrancy claims). Returns Except because notify raises IndexError when the
positional payload is empty (line 194 indexes args_list[0] unguarded). -/
def notifyAux (suspendTrace : Bool) (observers : ObsMap) (func : PyVal)
    (eventType : String) (args : List PyVal) (level : String)
    (defaultValue : PyVal) : Except NErr PyVal × Nat :=
  if suspendTrace then
    (Except.ok PyVal.none, 0)
  else
    let argsList := args
    if denyHit argsList then
      (Except.ok PyVal.none, 0)
    else
      match argsList with
      | [] => (Except.error NErr.indexError, 0)
      | a0 :: rest =>
        let a1 := if isModuleV a0 then PyVal.none else a0
        let args1 := a1 :: rest
        let eventKey := level ++ "_" ++ eventType
        match obsLookup observers eventKey with
        | some cbs =>
          match runCallbacks cbs args1 with
          | (some r, k) => (Except.ok r, k)
          | (Option.none, k) => (Except.ok defaultValue, k)
        | Option.none => (Except.ok defaultValue, 0)

/-- Convenience view of notify used by the wrapper models: result value only,
with the default at None as at every wrapper call site (no default_value
keyword is passed there). The payloads the wrappers build are always
nonempty, so the IndexError branch is unreachable in these uses. -/
def notifyV (suspendTrace : Bool) (observers : ObsMap) (eventType : String)
    (args : List PyVal) (level : String) : PyVal :=
  match (notifyAux suspendTrace observers PyVal.none eventType args level PyVal.none).1 with
  | Except.ok v => v
  | Except.error _ => PyVal.none

/-- Inner wrapper of MonkeyPatcher.patch_instance_method (lines 416-436),
paired with a flag recording whether the original method body was invoked.
Tuple results substitute the call arguments only in the well-formed
(args-tuple, kwargs-dict) shape; a malformed tuple raises in the source and
is outside the claims under verification. -/
def patched_method (suspendTrace : Bool) (observers : ObsMap)
    (targetClass : PyVal) (methodName : String)
    (originalMethod : PyVal → List PyVal → List (String × PyVal) → PyVal)
    (instanceSelf : PyVal) (args : List PyVal)
    (kwargs : List (String × PyVal)) : PyVal × Bool :=
  let result := notifyV suspendTrace observers "before_call"
    [targetClass, PyVal.str methodName, PyVal.tuple args, PyVal.dict kwargs] "instance"
  let finish := fun (margs : List PyVal) (mkw : List (String × PyVal)) =>
    let r1 := originalMethod instanceSelf margs mkw
    let modifiedResult := notifyV suspendTrace observers "after_call"
      [targetClass, PyVal.str methodName, r1] "instance"
    (if isNone modifiedResult then r1 else modifiedResult, true)
  match result with
  | PyVal.dict m =>
    if pyTruthy (dictGetD m "do_not_really_call" (PyVal.bool false)) then
      (dictGetD m "return_value" PyVal.none, false)
    else
      finish args kwargs
  | PyVal.tuple [PyVal.tuple l, PyVal.dict kw] => finish l kw
  | _ => finish args kwargs

/-- Inner wrapper of MonkeyPatcher.patch_class_method (lines 447-468):
same shape as the instance wrapper, but the original is the unbound function
applied to the class object and notification level is class. -/
def patched_class_method (suspendTrace : Bool) (observers : ObsMap)
    (targetClass : PyVal) (methodName : String)
    (originalMethod : PyVal → List PyVal → List (String × PyVal) → PyVal)
    (clsArg : PyVal) (args : List PyVal)
    (kwargs : List (String × PyVal)) : PyVal × Bool :=
  let result := notifyV suspendTrace observers "before_call"
    [targetClass, PyVal.str methodName, PyVal.tuple args, PyVal.dict kwargs] "class"
  let finish := fun (margs : List PyVal) (mkw : List (String × PyVal)) =>
    let r1 := originalMethod clsArg margs mkw
    let modifiedResult := notifyV suspendTrace observers "after_call"
      [targetClass, PyVal.str methodName, r1] "class"
    (if isNone modifiedResult then r1 else modifiedResult, true)
  match result with
  | PyVal.dict m =>
    if pyTruthy (dictGetD m "do_not_really_call" (PyVal.bool false)) then
      (dictGetD m "return_value" PyVal.none, false)
    else
      finish args kwargs
  | PyVal.tuple [PyVal.tuple l, PyVal.dict kw] => finish l kw
  | _ => finish args kwargs

/-- Inner wrapper of MonkeyPatcher.patch_static_method (lines 477-497):
no implicit first argument, notification level is class. -/
def patched_static_method (suspendTrace : Bool) (observers : ObsMap)
    (targetClass : PyVal) (methodName : String)
    (originalMethod : List PyVal → List (String × PyVal) → PyVal)
    (args : List PyVal) (kwargs : List (String × PyVal)) : PyVal × Bool :=
  let result := notifyV suspendTrace observers "before_call"
    [targetClass, PyVal.str methodName, PyVal.tuple args, PyVal.dict kwargs] "class"
  let finish := fun (margs : List PyVal) (mkw : List (String × PyVal)) =>
    let r1 := originalMethod margs mkw
    let modifiedResult := notifyV suspendTrace observers "after_call"
      [targetClass, PyVal.str methodName, r1] "class"
    (if isNone modifiedResult then r1 else modifiedResult, true)
  match result with
  | PyVal.dict m =>
    if pyTruthy (dictGetD m "do_not_really_call" (PyVal.bool false)) then
      (dictGetD m "return_value" PyVal.none, false)
    else
      finish args kwargs
  | PyVal.tuple [PyVal.tuple l, PyVal.dict kw] => finish l kw
  | _ => finish args kwargs

/-- Inner wrapper of MonkeyPatcher.patch_module_function (lines 506-526):
the owner passed to notifications is the module and the level is module. -/
def patched_function (suspendTrace : Bool) (observers : ObsMap)
    (moduleV : PyVal) (functionName : String)
    (originalFunction : List PyVal → List (String × PyVal) → PyVal)
    (args : List PyVal) (kwargs : List (String × PyVal)) : PyVal × Bool :=
  let result := notifyV suspendTrace observers "before_call"
    [moduleV, PyVal.str functionName, PyVal.tuple args, PyVal.dict kwargs] "module"
  let finish := fun (margs : List PyVal) (mkw : List (String × PyVal)) =>
    let r1 := originalFunction margs mkw
    let modifiedResult := notifyV suspendTrace observers "after_call"
      [moduleV, PyVal.str functionName, r1] "module"
    (if isNone modifiedResult then r1 else modifiedResult, true)
  match result with
  | PyVal.dict m =>
    if pyTruthy (dictGetD m "do_not_really_call" (PyVal.bool false)) then
      (dictGetD m "return_value" PyVal.none, false)
    else
      finish args kwargs
  | PyVal.tuple [PyVal.tuple l, PyVal.dict kw] => finish l kw
  | _ => finish args kwargs

/-- Inner getter built by create_instance_getter (lines 215-247) for the
non-property case (original member is a captured value, not a property
descriptor): the raw access reads the shadow attribute __original_<name>
from the instance dict. In the source suspend_trace is set around the raw
access and cleared again at line 234 before notify runs, so the notify call
is made with the flag down; the callbacks here are pure, so the toggle has
no further effect and the getter is a function of the flag at entry. -/
def instance_getter_var (observers : ObsMap) (suspendTrace : Bool)
    (origV target : PyVal) (propertyName : String)
    (inst : List (String × PyVal)) : PyVal :=
  if suspendTrace then
    dictGetD inst ("__original_" ++ propertyName) PyVal.none
  else
    let currentValue := dictGetD inst ("__original_" ++ propertyName) PyVal.none
    let result := notifyV false observers "get"
      [target, PyVal.str propertyName, currentValue] "instance"
    match result with
    | PyVal.dict m =>
      if pyTruthy (dictGetD m "do_not_really_get" (PyVal.bool false)) then
        dictGetD m "return_value" PyVal.none
      else
        currentValue
    | _ => currentValue

/-- Inner setter built by create_instance_setter (lines 251-289) for the
non-property case. Note line 282 of the source: the fallback write stores
the new value under the literal key "instance_var", not under the patched
property name, and the origV value is not consulted. -/
def instance_setter_var (observers : ObsMap) (suspendTrace : Bool)
    (origV target : PyVal) (propertyName : String)
    (inst : List (String × PyVal)) (newValue : PyVal) :
    List (String × PyVal) :=
  if suspendTrace then
    dictSet inst propertyName newValue
  else
    let result := notifyV false observers "set"
      [target, PyVal.str propertyName, newValue] "instance"
    match result with
    | PyVal.dict m =>
      if pyTruthy (dictGetD m "do_not_really_set" (PyVal.bool false)) then
        inst
      else
        dictSet inst "instance_var" newValue
    | _ => dictSet inst "instance_var" newValue

/-- State threaded through the reentrancy scenario: the global suspend_trace
flag and a counter of notify dispatches that reached the subscriber list. -/
structure GetSt where
  suspendTrace : Bool
  dispatches : Nat

/-- The instance getter of create_instance_getter specialized to the scenario
of the reentrancy claim: a single (instance, get) subscriber that itself
reads the same patched property during its callback. Observer.notify is
inlined (its suspend_trace guard, the denylist miss for an ordinary property
name, the dispatch). Fuel bounds the recursion; exhausted fuel yields none.
Mirrors lines 215-247: the flag is raised for the raw access and lowered at
line 234, before notify and hence before the subscriber runs. -/
def instanceGetterLoop : Nat → GetSt → GetSt × Option PyVal
  | 0, st => (st, Option.none)
  | Nat.succ n, st =>
    if st.suspendTrace then
      (st, some PyVal.none)
    else
      let stRaised : GetSt := { st with suspendTrace := true }
      let currentValue := PyVal.none
      let stLowered : GetSt := { stRaised with suspendTrace := false }
      if stLowered.suspendTrace then
        (stLowered, some currentValue)
      else
        let stDispatched : GetSt :=
          { stLowered with dispatches := stLowered.dispatches + 1 }
        match instanceGetterLoop n stDispatched with
        | (stAfter, Option.none) => (stAfter, Option.none)
        | (stAfter, some _) => (stAfter, some currentValue)

/-- The closed enumeration of member kinds (MemberType, lines 145-155). -/
inductive MemberType where
  | VARIABLE
  | PROPERTY
  | METHOD
  | STATIC_METHOD
  | CLASS_METHOD
  | FUNCTION
  | MODULE
  | CLASS
  | SPECIAL_METHOD
  | SPECIAL_VARIABLE
deriving DecidableEq

/-- The closed enumeration of member levels (MemberLevel, lines 157-160). -/
inductive MemberLevel where
  | INSTANCE
  | CLASS
  | MODULE
deriving DecidableEq

/-- The member_info record handed to Inspector.patch_member_info. The member
field is the identity of the underlying descriptor object; Python dict keys
compare by equality, which on the descriptor objects at play coincides with
identity. -/
structure MemberInfo where
  name : String
  member : Nat
  memberType : MemberType
  level : MemberLevel
deriving DecidableEq

/-- State of the patch registry: the keys of Inspector.patched_members and a
counter of wrapper installations performed by the MonkeyPatcher. -/
structure PatchSt where
  patched : List Nat
  installs : Nat
deriving DecidableEq

/-- Number of wrapper installations the dispatch of patch_member_info
(lines 779-824) performs for a given kind and level: one for each branch
that calls a monkey_patcher patch routine, zero for the branches that merely
log and skip (unknown method levels, module-level variables, unsupported
member types). -/
def installsFor : MemberType → MemberLevel → Nat
  | MemberType.METHOD, MemberLevel.INSTANCE => 1
  | MemberType.METHOD, MemberLevel.CLASS => 1
  | MemberType.METHOD, MemberLevel.MODULE => 0
  | MemberType.CLASS_METHOD, _ => 1
  | MemberType.STATIC_METHOD, _ => 1
  | MemberType.PROPERTY, _ => 1
  | MemberType.VARIABLE, MemberLevel.CLASS => 1
  | MemberType.VARIABLE, MemberLevel.INSTANCE => 1
  | MemberType.VARIABLE, MemberLevel.MODULE => 0
  | MemberType.FUNCTION, _ => 1
  | MemberType.SPECIAL_METHOD, MemberLevel.INSTANCE => 1
  | MemberType.SPECIAL_METHOD, MemberLevel.CLASS => 1
  | MemberType.SPECIAL_METHOD, MemberLevel.MODULE => 0
  | _, _ => 0

/-- Inspector.patch_member_info (lines 761-826): when the member is not yet a
key of patched_members, record it and dispatch to the per-kind patch routine
(modelled by the installation counter); when it already is a key, return at
once (lines 773-776). -/
def patch_member_info (st : PatchSt) (info : MemberInfo) : PatchSt :=
  if st.patched.contains info.member then
    st
  else
    { patched := info.member :: st.patched,
      installs := st.installs + installsFor info.memberType info.level }

/-- Descriptor shapes as stored in a class __dict__, the raw definitions the
classifier inspects: property descriptors, staticmethod and classmethod
descriptors (carrying the declared parameter names of the wrapped function,
or Option.none when inspect.signature would raise), plain functions, plain
data values, nested classes and modules. -/
inductive Descr where
  | prop (hasSetter : Bool)
  | staticm (params : Option (List String))
  | classm (params : Option (List String))
  | func (params : Option (List String))
  | value (v : PyVal)
  | clsD
  | modD

/-- A class container as seen by introspection: its name, its own __dict__,
and the tail of its method resolution order as (name, dict) pairs. -/
structure PyClassM where
  name : String
  dict : List (String × Descr)
  mroTail : List (String × List (String × Descr))

/-- get_member_descriptor (lines 898-908), class branch: the own __dict__
first, then each ancestor in resolution order, first hit wins. -/
def get_member_descriptor (obj : PyClassM) (n : String) : Option Descr :=
  match obj.dict.find? (fun kv => kv.1 == n) with
  | some kv => some kv.2
  | Option.none =>
    match obj.mroTail.find? (fun b => (b.2.find? (fun kv => kv.1 == n)).isSome) with
    | some b =>
      match b.2.find? (fun kv => kv.1 == n) with
      | some kv => some kv.2
      | Option.none => Option.none
    | Option.none => Option.none

/-- implemented_in (lines 856-868), class branch: name of the class in the
resolution order that defines the member, Option.none when nowhere. -/
def implemented_in (n : String) (obj : PyClassM) : Option String :=
  if (obj.dict.map Prod.fst).contains n then
    some obj.name
  else
    match obj.mroTail.find? (fun b => (b.2.map Prod.fst).contains n) with
    | some b => some b.1
    | Option.none => Option.none

/-- inspect.isclass of the member obtained by attribute access. -/
def isClassMember : Descr → Bool
  | Descr.clsD => true
  | _ => false

/-- inspect.ismodule of the member obtained by attribute access. -/
def isModuleMember : Descr → Bool
  | Descr.modD => true
  | _ => false

/-- inspect.isfunction of the member obtained by attribute access: plain
functions, and staticmethod descriptors which class attribute access unwraps
to their underlying function. -/
def isFunctionMember : Descr → Bool
  | Descr.staticm _ => true
  | Descr.func _ => true
  | _ => false

/-- inspect.ismethod of the member obtained by attribute access: classmethod
descriptors read from a class produce bound methods. -/
def isMethodMember : Descr → Bool
  | Descr.classm _ => true
  | _ => false

/-- callable(member): functions, bound methods and classes are callable;
property objects, modules and plain data values are not. -/
def isCallableMember : Descr → Bool
  | Descr.staticm _ => true
  | Descr.classm _ => true
  | Descr.func _ => true
  | Descr.clsD => true
  | _ => false

/-- Declared parameter names inspect.signature reports for the member
obtained by attribute access: full parameter list for plain functions and
unwrapped staticmethods; classmethods are read as bound methods, so the
leading cls parameter is stripped; Option.none when introspection raises. -/
def memberSig : Descr → Option (List String)
  | Descr.staticm s => s
  | Descr.func s => s
  | Descr.classm s => s.map (fun ps => ps.drop 1)
  | _ => Option.none

/-- uses_self (lines 847-854): False for non-callables; otherwise True
exactly when the name self occurs among the declared parameters (a
membership test, not a check of the first parameter); False again when
signature introspection raises ValueError or TypeError. -/
def uses_self (m : Descr) : Bool :=
  if !isCallableMember m then
    false
  else
    match memberSig m with
    | some ps => ps.contains "self"
    | Option.none => false

/-- Dunder shape test used throughout: startswith and endswith double
underscore. -/
def isDunder (n : String) : Bool :=
  startsWithM n "__" && endsWithM n "__"

/-- Descriptor-shape tests on the optional looked-up descriptor. -/
def isPropDescr : Option Descr → Bool
  | some (Descr.prop _) => true
  | _ => false

/-- isinstance(descriptor, staticmethod) on the optional descriptor. -/
def isStaticDescr : Option Descr → Bool
  | some (Descr.staticm _) => true
  | _ => false

/-- isinstance(descriptor, classmethod) on the optional descriptor. -/
def isClassmDescr : Option Descr → Bool
  | some (Descr.classm _) => true
  | _ => false

/-- classify_member_type (lines 870-896): kind decision in source precedence
order, with the dunder name shape routing callables to SPECIAL_METHOD and
data to SPECIAL_VARIABLE. -/
def classify_member_type (obj : PyClassM) (n : String) (m : Descr) : MemberType :=
  let descriptor := get_member_descriptor obj n
  if isClassMember m then MemberType.CLASS
  else if isModuleMember m then MemberType.MODULE
  else if isPropDescr descriptor then MemberType.PROPERTY
  else if isStaticDescr descriptor then MemberType.STATIC_METHOD
  else if isClassmDescr descriptor then MemberType.CLASS_METHOD
  else if isFunctionMember m then
    (if isDunder n then MemberType.SPECIAL_METHOD else MemberType.FUNCTION)
  else if isMethodMember m then MemberType.METHOD
  else if !isCallableMember m then
    (if isDunder n then MemberType.SPECIAL_VARIABLE else MemberType.VARIABLE)
  else
    (if isDunder n then MemberType.SPECIAL_METHOD else MemberType.METHOD)

/-- classify_member_level (lines 910-931) for class containers, the only
containers get_members scans (module containers take the MODULE branch of
the source and never reach this model): properties are INSTANCE, static and
class method descriptors CLASS, non-callables CLASS, self-declaring
callables INSTANCE, callables implemented only on object MODULE, the rest
CLASS. -/
def classify_member_level (obj : PyClassM) (n : String) (m : Descr)
    (implementedFrom : Option String) (usesSelfFlag : Bool) : MemberLevel :=
  let descriptor := get_member_descriptor obj n
  if isPropDescr descriptor then MemberLevel.INSTANCE
  else if isStaticDescr descriptor then MemberLevel.CLASS
  else if isClassmDescr descriptor then MemberLevel.CLASS
  else if !isCallableMember m then MemberLevel.CLASS
  else if usesSelfFlag then MemberLevel.INSTANCE
  else if implementedFrom == some "object" then MemberLevel.MODULE
  else MemberLevel.CLASS

/-- classify_implementation (lines 933-941): Local when defined on the
container itself or nowhere, Default when defined only on object, Inherited
otherwise; the source returns the enumeration value strings. -/
def classify_implementation (obj : PyClassM) (implementedFrom : Option String) :
    String :=
  if implementedFrom == some obj.name then "Local"
  else if implementedFrom == some "object" then "Default"
  else if implementedFrom.isSome then "Inherited"
  else "Local"

/-- The unconditional name filter at lines 660-661 of get_members: names
beginning with an underscore are dropped unless they have the dunder shape. -/
def excludedName (n : String) : Bool :=
  startsWithM n "_" && !(startsWithM n "__" && endsWithM n "__")

/-- Insertion into a name-sorted list. -/
def insertName (n : String) : List String → List String
  | [] => [n]
  | m :: ms => if strLeM n m then n :: m :: ms else m :: insertName n ms

/-- Insertion sort of names, modelling the name ordering of
inspect.getmembers. -/
def sortNames : List String → List String
  | [] => []
  | n :: ns => insertName n (sortNames ns)

/-- All attribute names visible on the container: own __dict__ keys plus
every ancestor dict key, deduplicated and name-sorted as inspect.getmembers
reports them. -/
def allNames (obj : PyClassM) : List String :=
  (sortNames (obj.dict.map Prod.fst ++
    (obj.mroTail.map (fun b => b.2.map Prod.fst)).flatten)).dedup

/-- inspect.getmembers(obj) for the class model: each visible name paired
with its resolved descriptor. -/
def getmembersM (obj : PyClassM) : List (String × Descr) :=
  (allNames obj).filterMap
    (fun n => (get_member_descriptor obj n).map (fun d => (n, d)))

/-- The classification record get_members builds per surviving member
(lines 681-690), restricted to the fields the claims mention. -/
structure GMInfo where
  name : String
  memberType : MemberType
  level : MemberLevel
  implementation : String
  implementedFrom : Option String
  className : String

/-- The member loop of Inspector.get_members (lines 659-695): the
unconditional underscore filter, classification, the two filters that are
conditional on no_filter (provenance not Local, and Class-scoped
SPECIAL_VARIABLE), the printed_members dedup, and accumulation. Returns the
surviving records together with the grown printed_members set. -/
def get_members_go (obj : PyClassM) (noFilter : Bool) :
    List (String × Descr) → List (String × String) →
    List GMInfo × List (String × String)
  | [], printed => ([], printed)
  | (n, d) :: rest, printed =>
    if excludedName n then
      get_members_go obj noFilter rest printed
    else
      let implementedFrom := implemented_in n obj
      let isC := isCallableMember d
      let selfUsage := if isC then uses_self d else false
      let mt := classify_member_type obj n d
      let ml := classify_member_level obj n d implementedFrom selfUsage
      let impl := classify_implementation obj implementedFrom
      if !noFilter && !(impl == "Local") then
        get_members_go obj noFilter rest printed
      else if !noFilter && (ml == MemberLevel.CLASS && mt == MemberType.SPECIAL_VARIABLE) then
        get_members_go obj noFilter rest printed
      else if (obj.name, n) ∈ printed then
        get_members_go obj noFilter rest printed
      else
        let info : GMInfo :=
          { name := n, memberType := mt, level := ml, implementation := impl,
            implementedFrom := implementedFrom, className := obj.name }
        let p := get_members_go obj noFilter rest ((obj.name, n) :: printed)
        (info :: p.1, p.2)

/-- Inspector.get_members (lines 654-695) over the class model: run the
member loop on inspect.getmembers of the container. -/
def get_members (obj : PyClassM) (noFilter : Bool)
    (printed : List (String × String)) :
    List GMInfo × List (String × String) :=
  get_members_go obj noFilter (getmembersM obj) printed

/-- Outcome of inspect.signature on a callable: a signature string, a
ValueError or TypeError, or some other exception. -/
inductive SigOutcome where
  | ok (s : String)
  | valueOrTypeError
  | otherError
deriving DecidableEq

/-- The facts about a callable the signature helper consults: how
inspect.signature behaves on it, whether it is a types.BuiltinFunctionType,
whether it has a doc attribute, and its doc string (Option.none for a None
doc). -/
structure PyCallableInfo where
  sigOutcome : SigOutcome
  isBuiltinFunctionType : Bool
  hasDocAttr : Bool
  doc : Option String
deriving DecidableEq

/-- is_pybind11_function (lines 123-125). -/
def is_pybind11_function (o : PyCallableInfo) : Bool :=
  o.isBuiltinFunctionType && o.hasDocAttr

/-- Model of str.splitlines for line-feed separated text; the counterexample
and theorems below use only line-feed separators, on which the two agree. -/
def splitLines (s : String) : List String :=
  (splitCharAux '\n' s.data []).map String.mk

/-- get_pybind11_signature (lines 127-138): with a truthy doc string, look at
its first line only; when that line contains both an opening and a closing
parenthesis return it stripped, otherwise fall through to the sentinel. -/
def get_pybind11_signature (o : PyCallableInfo) : String :=
  match o.doc with
  | some d =>
    if d == "" then
      "(pybind11 function with unknown signature)"
    else
      let firstLine := (splitLines d).headD ""
      if containsChar firstLine '(' && containsChar firstLine ')' then
        pyStrip firstLine
      else
        "(pybind11 function with unknown signature)"
  | Option.none => "(pybind11 function with unknown signature)"

/-- The signature helper (lines 107-121): inspect.signature when it works;
on ValueError or TypeError the pybind11 doc fallback when the callable
qualifies, else the builtin-method sentinel; on any other exception the
unknown sentinel. Total: no path raises. -/
def signatureFn (o : PyCallableInfo) : String :=
  match o.sigOutcome with
  | SigOutcome.ok s => s
  | SigOutcome.valueOrTypeError =>
    if is_pybind11_function o then get_pybind11_signature o
    else "(builtin method)"
  | SigOutcome.otherError => "(unknown)"

/-- Callback at a position of a subscriber list, with a vacuous callback as
the out-of-range default. -/
def cbD (cbs : List Cb) (i : Nat) : Cb :=
  cbs.getD i (fun _ => PyVal.none)

/-- A suppressing before_call subscriber: it always answers with a mapping
that sets do_not_really_call and carries return value 7. -/
def c3cbW : Cb :=
  fun _ => PyVal.dict [("do_not_really_call", PyVal.bool true), ("return_value", PyVal.int 7)]

/-- Hub with the suppressing subscriber registered at (instance, before_call). -/
def c3obsW : ObsMap := subscribe [] "before_call" c3cbW "instance"

/-- A purely observing subscriber that never overrides. -/
def c8cbW : Cb := fun _ => PyVal.none

/-- Hub with the observing subscriber registered at (instance, get). -/
def c8obsW : ObsMap := subscribe [] "get" c8cbW "instance"

/-- Two overriding get subscribers for the ordering claim. -/
def cbAW : Cb := fun _ => PyVal.int 5

/-- Second subscriber of the ordering scenario. -/
def cbBW : Cb := fun _ => PyVal.int 6

/-- Hub with cbAW subscribed before cbBW at (instance, get). -/
def obs1W : ObsMap := subscribe (subscribe [] "get" cbAW "instance") "get" cbBW "instance"

/-- Empty patch registry. -/
def st0W : PatchSt := { patched := [], installs := 0 }

/-- A first member record: an instance method with descriptor identity 5. -/
def iW : MemberInfo :=
  { name := "m", member := 5, memberType := MemberType.METHOD, level := MemberLevel.INSTANCE }

/-- A second record naming the same descriptor 5 under a different member
name and classification. -/
def jW : MemberInfo :=
  { name := "other_name", member := 5, memberType := MemberType.CLASS_METHOD, level := MemberLevel.CLASS }

/-- A class exposing an underscore-named member and an ordinary member. -/
def obj6W : PyClassM :=
  { name := "Demo",
    dict := [("_hidden", Descr.value (PyVal.int 5)), ("visible", Descr.value (PyVal.int 1))],
    mroTail := [("object", [])] }

/-- A class with a local plain function whose second parameter is self. -/
def obj7W : PyClassM :=
  { name := "Demo7",
    dict := [("helper", Descr.func (some ["x", "self"]))],
    mroTail := [("object", [])] }

/-- The function descriptor of the obj7W member. -/
def d7W : Descr := Descr.func (some ["x", "self"])

/-- A natively-bound callable whose doc has its parenthesized fragment on the
second line, not the first. -/
def c9objW : PyCallableInfo :=
  { sigOutcome := SigOutcome.valueOrTypeError, isBuiltinFunctionType := true,
    hasDocAttr := true, doc := some "Adds two numbers.\nadd(x, y) -> int" }

/-- A natively-bound callable whose doc opens with the parenthesized
signature line. -/
def c9goodW : PyCallableInfo :=
  { sigOutcome := SigOutcome.valueOrTypeError, isBuiltinFunctionType := true,
    hasDocAttr := true, doc := some "add(x, y) -> int\nAdds two numbers." }

/-- Looking a key up after addKey finds the previous list with the new
callback appended. -/
theorem addKey_obsLookup (observers : ObsMap) (k : String) (cb : Cb)
    (cbs : List Cb) (hkey : obsLookup observers k = some cbs) :
    obsLookup (addKey observers k cb) k = some (cbs ++ [cb]) := by
  induction observers with
  | nil => simp [obsLookup] at hkey
  | cons hd tl ih =>
    obtain ⟨k1, l1⟩ := hd
    by_cases h : (k1 == k) = true
    · simp [obsLookup, h] at hkey
      simp [addKey, obsLookup, h, hkey]
    · simp only [obsLookup, h] at hkey
      simp only [addKey, obsLookup, h]
      simp only [Bool.false_eq_true, if_neg] at hkey ⊢
      exact ih hkey

/-- The dispatch loop invokes callbacks in list order: when every callback
before position i answers None and the callback at i answers non-None, the
loop stops at i with exactly i+1 invocations. -/
theorem runCallbacks_first (cbs : List Cb) (args : List PyVal) :
    ∀ i : Nat, i < cbs.length →
    (∀ j, j < i → isNone (cbD cbs j args) = true) →
    isNone (cbD cbs i args) = false →
    runCallbacks cbs args = (some (cbD cbs i args), i + 1) := by
  induction cbs with
  | nil => intro i hi; exact absurd hi (Nat.not_lt_zero i)
  | cons c rest ih =>
    intro i hi hprev hcur
    cases i with
    | zero =>
      have hc : isNone (c args) = false := hcur
      simp [runCallbacks, cbD, hc]
    | succ k =>
      have h0 : isNone (c args) = true := hprev 0 (Nat.succ_pos k)
      have hk : k < rest.length := Nat.lt_of_succ_lt_succ hi
      have hprev2 : ∀ j, j < k → isNone (cbD rest j args) = true :=
        fun j hj => hprev (j + 1) (Nat.succ_lt_succ hj)
      have hcur2 : isNone (cbD rest k args) = false := hcur
      have hrec := ih k hk hprev2 hcur2
      simp [runCallbacks, h0, hrec, cbD]

/-- When every callback answers None, the loop runs them all and yields no
override. -/
theorem runCallbacks_none (cbs : List Cb) (args : List PyVal)
    (h : ∀ cb ∈ cbs, isNone (cb args) = true) :
    runCallbacks cbs args = (Option.none, cbs.length) := by
  induction cbs with
  | nil => rfl
  | cons c rest ih =>
    have hc : isNone (c args) = true := h c (List.mem_cons_self c rest)
    have hr := ih (fun cb hcb => h cb (List.mem_cons_of_mem c hcb))
    simp [runCallbacks, hc, hr]

/-- C10: when the reentrancy flag is unset and the variadic payload after the
original member and the event type is empty, Observer.notify raises
IndexError while normalizing the payload (line 194 indexes args_list[0] with
no guard) instead of returning the default value. -/
theorem c10_empty_payload_index_error (observers : ObsMap) (func : PyVal)
    (eventType level : String) (defaultValue : PyVal) :
    notifyAux false observers func eventType [] level defaultValue =
      (Except.error NErr.indexError, 0) := rfl

/-- C8, counterexample: two notify calls in which no subscribed callback
returns a non-null result, yet the caller-supplied default 42 is not
returned. With the reentrancy flag set, and likewise with the flag unset but
a denylisted member name, notify returns None rather than the default. -/
theorem c8_counterexample :
    (notifyAux true [] PyVal.none "get"
      [PyVal.obj 1, PyVal.str "p"] "instance" (PyVal.int 42)).1 = Except.ok PyVal.none ∧
    (notifyAux false [] PyVal.none "get"
      [PyVal.obj 1, PyVal.str "tokenizer_frob", PyVal.int 1] "instance" (PyVal.int 42)).1 =
      Except.ok PyVal.none ∧
    PyVal.none ≠ PyVal.int 42 :=
  ⟨rfl, rfl, fun h => PyVal.noConfusion h⟩

/-- C8, amended: provided the reentrancy flag is unset, the payload is
nonempty and the member name misses the denylist, a notify call in which
every subscribed callback under the event key returns None — including when
no callback list is registered under the key — returns the caller-supplied
default value. -/
theorem c8_default_amended (observers : ObsMap) (func : PyVal)
    (eventType level : String) (a0 : PyVal) (rest : List PyVal)
    (defaultValue : PyVal)
    (hden : denyHit (a0 :: rest) = false)
    (hnone : ∀ cbs, obsLookup observers (level ++ "_" ++ eventType) = some cbs →
      ∀ cb ∈ cbs, isNone (cb (normalizeArgs (a0 :: rest))) = true) :
    (notifyAux false observers func eventType (a0 :: rest) level defaultValue).1 =
      Except.ok defaultValue := by
  simp only [notifyAux, if_neg (Bool.false_ne_true), hden, Bool.false_eq_true, if_false]
  cases hl : obsLookup observers (level ++ "_" ++ eventType) with
  | none => simp
  | some cbs =>
    have hr := runCallbacks_none cbs (normalizeArgs (a0 :: rest)) (hnone cbs hl)
    simp only [normalizeArgs] at hr
    simp [hr]

/-- C8, witness: with one purely observing get subscriber, a clean member
name and default 42, notify returns 42. -/
theorem c8_witness :
    (notifyAux false c8obsW PyVal.none "get"
      [PyVal.obj 1, PyVal.str "p"] "instance" (PyVal.int 42)).1 = Except.ok (PyVal.int 42) := by
  refine c8_default_amended c8obsW PyVal.none "get" "instance" (PyVal.obj 1)
    [PyVal.str "p"] (PyVal.int 42) rfl ?_
  intro cbs hc cb hcb
  have hc2 : some [c8cbW] = some cbs := hc
  injection hc2 with h
  subst h
  rw [List.mem_singleton] at hcb
  subst hcb
  rfl

/-- C4: the claim is half right and half wrong on the code. While the
suspend_trace flag is set, notify performs no dispatch and invokes no
subscriber (first conjunct). But the instance getter clears the flag at line
234 before calling notify, so a get subscriber that itself reads the same
property re-enters notification on every nested read: each unit of fuel adds
one more dispatch and the evaluation never completes, in contradiction with
the claimed single notification for the outer read (second conjunct). -/
theorem c4_reentrancy_bug :
    (∀ (observers : ObsMap) (func : PyVal) (eventType : String)
      (args : List PyVal) (level : String) (defaultValue : PyVal),
      notifyAux true observers func eventType args level defaultValue =
        (Except.ok PyVal.none, 0)) ∧
    (∀ (n d : Nat),
      (instanceGetterLoop n { suspendTrace := false, dispatches := d }).1.dispatches = d + n ∧
      (instanceGetterLoop n { suspendTrace := false, dispatches := d }).2 = Option.none) := by
  refine ⟨fun observers func eventType args level defaultValue => rfl, ?_⟩
  intro n
  induction n with
  | zero =>
    intro d
    exact ⟨by simp [instanceGetterLoop], rfl⟩
  | succ k ih =>
    intro d
    obtain ⟨h1, h2⟩ := ih (d + 1)
    rcases hk : instanceGetterLoop k { suspendTrace := false, dispatches := d + 1 } with ⟨stA, rA⟩
    rw [hk] at h1 h2
    simp only at h1 h2
    subst h2
    constructor
    · simp only [instanceGetterLoop, hk]
      simp [h1]
      omega
    · simp [instanceGetterLoop, hk]

/-- C5: the code contradicts the claim for patched instance variables. The
original instance dict holds 10 under the name, but the patched getter reads
the never-written shadow attribute __original_value and returns None; after
setting the member to 200 with no veto, the setter stores the value under
the literal key instance_var (line 282), so a subsequent patched read still
returns None rather than 200. -/
theorem c5_instance_variable_bug :
    dictGetD [("value", PyVal.int 10)] "value" PyVal.none = PyVal.int 10 ∧
    instance_getter_var [] false (PyVal.int 10) (PyVal.obj 1) "value"
      [("value", PyVal.int 10)] = PyVal.none ∧
    instance_getter_var [] false (PyVal.int 10) (PyVal.obj 1) "value"
      (instance_setter_var [] false (PyVal.int 10) (PyVal.obj 1) "value"
        [("value", PyVal.int 10)] (PyVal.int 200)) = PyVal.none ∧
    dictGetD (instance_setter_var [] false (PyVal.int 10) (PyVal.obj 1) "value"
      [("value", PyVal.int 10)] (PyVal.int 200)) "value" PyVal.none = PyVal.int 10 ∧
    dictGetD (instance_setter_var [] false (PyVal.int 10) (PyVal.obj 1) "value"
      [("value", PyVal.int 10)] (PyVal.int 200)) "instance_var" PyVal.none = PyVal.int 200 ∧
    PyVal.none ≠ PyVal.int 10 ∧ PyVal.none ≠ PyVal.int 200 :=
  ⟨rfl, rfl, rfl, rfl, rfl, fun h => PyVal.noConfusion h, fun h => PyVal.noConfusion h⟩

/-- C2: patch_member_info is idempotent by descriptor identity. A second
application naming the same underlying descriptor is a no-op regardless of
the member name or classification it carries; an application on an
already-patched descriptor changes nothing; a fresh application performs
exactly the installations of its dispatch branch; and once recorded, a
descriptor stays recorded, so it is wrapped at most once across the process
lifetime. -/
theorem c2_patch_idempotent (st : PatchSt) (i j : MemberInfo) :
    (j.member = i.member →
      patch_member_info (patch_member_info st i) j = patch_member_info st i) ∧
    (st.patched.contains i.member = true → patch_member_info st i = st) ∧
    (st.patched.contains i.member = false →
      (patch_member_info st i).installs =
        st.installs + installsFor i.memberType i.level) ∧
    ((patch_member_info st i).patched.contains i.member = true) ∧
    (∀ m, st.patched.contains m = true →
      (patch_member_info st i).patched.contains m = true) := by
  refine ⟨?_, ?_, ?_, ?_, ?_⟩
  · intro hm
    by_cases h : i.member ∈ st.patched
    · simp [patch_member_info, h, hm]
    · simp [patch_member_info, h, hm]
  · intro h
    replace h : i.member ∈ st.patched := by simpa using h
    simp [patch_member_info, h]
  · intro h
    replace h : i.member ∉ st.patched := by simpa using h
    simp [patch_member_info, h]
  · by_cases h : i.member ∈ st.patched
    · simp [patch_member_info, h]
    · simp [patch_member_info, h]
  · intro m hm
    replace hm : m ∈ st.patched := by simpa using hm
    by_cases h : i.member ∈ st.patched
    · simp [patch_member_info, h, hm]
    · simp [patch_member_info, h, hm]

/-- C2, witness: patching descriptor 5 as an instance method and then again
under a different name and classification installs exactly one wrapper. -/
theorem c2_witness :
    patch_member_info (patch_member_info st0W iW) jW = patch_member_info st0W iW ∧
    (patch_member_info st0W iW).installs = 1 :=
  ⟨(c2_patch_idempotent st0W iW jW).1 rfl,
   (c2_patch_idempotent st0W iW jW).2.2.1 rfl⟩

/-- C1: when notify dispatches to the callback list registered under the
(scope, event-type) key — the flag is unset, the payload is nonempty and
misses the denylist, and the key is present — the callbacks run in
subscription order on the normalized payload: the first to return a
non-null result becomes the result of notify, with exactly i+1 callbacks
invoked and none after position i. Moreover subscribe appends to the end of
the list under the key, so list order is registration order. -/
theorem c1_notify_dispatch_order (observers : ObsMap) (func : PyVal)
    (eventType level : String) (a0 : PyVal) (rest : List PyVal)
    (defaultValue : PyVal) (cbs : List Cb) (i : Nat)
    (hkey : obsLookup observers (level ++ "_" ++ eventType) = some cbs)
    (hden : denyHit (a0 :: rest) = false)
    (hi : i < cbs.length)
    (hprev : ∀ j, j < i → isNone (cbD cbs j (normalizeArgs (a0 :: rest))) = true)
    (hcur : isNone (cbD cbs i (normalizeArgs (a0 :: rest))) = false) :
    notifyAux false observers func eventType (a0 :: rest) level defaultValue =
      (Except.ok (cbD cbs i (normalizeArgs (a0 :: rest))), i + 1) ∧
    (∀ cb, obsLookup (subscribe observers eventType cb level)
      (level ++ "_" ++ eventType) = some (cbs ++ [cb])) := by
  constructor
  · have hrun := runCallbacks_first cbs (normalizeArgs (a0 :: rest)) i hi hprev hcur
    simp only [normalizeArgs] at hrun
    simp [notifyAux, hden, hkey, hrun, normalizeArgs]
  · intro cb
    exact addKey_obsLookup observers (level ++ "_" ++ eventType) cb cbs hkey

/-- C1, witness: with cbAW subscribed before cbBW at (instance, get), the
dispatch returns the answer of cbAW after invoking exactly one callback. -/
theorem c1_witness :
    notifyAux false obs1W PyVal.none "get"
      [PyVal.obj 1, PyVal.str "p", PyVal.int 3] "instance" PyVal.none =
      (Except.ok (PyVal.int 5), 1) :=
  (c1_notify_dispatch_order obs1W PyVal.none "get" "instance" (PyVal.obj 1)
    [PyVal.str "p", PyVal.int 3] PyVal.none [cbAW, cbBW] 0 rfl rfl
    (Nat.succ_pos 1) (fun j hj => absurd hj (Nat.not_lt_zero j)) rfl).1

/-- C3, counterexample: the member name tokenizer matches the notify
denylist, so even though the (instance, before_call) subscriber answers a
mapping with a truthy do_not_really_call flag (third conjunct), the wrapper
invokes the original callable and returns its result 99 instead of the
declared value 7. -/
theorem c3_counterexample :
    patched_method false c3obsW (PyVal.obj 1) "tokenizer"
      (fun _ _ _ => PyVal.int 99) (PyVal.obj 2) [] [] = (PyVal.int 99, true) ∧
    c3cbW [PyVal.obj 1, PyVal.str "tokenizer", PyVal.tuple [], PyVal.dict []] =
      PyVal.dict [("do_not_really_call", PyVal.bool true), ("return_value", PyVal.int 7)] ∧
    pyTruthy (dictGetD [("do_not_really_call", PyVal.bool true), ("return_value", PyVal.int 7)]
      "do_not_really_call" (PyVal.bool false)) = true ∧
    (PyVal.int 99, true) ≠ ((PyVal.int 7 : PyVal), (false : Bool)) :=
  ⟨rfl, rfl, rfl, fun h => Bool.noConfusion (congrArg Prod.snd h)⟩

/-- C3, amended: for each of the four wrapper shapes (instance method, class
method, static method, module function), whenever the reentrancy flag is
unset and the before_call notification yields a mapping with a truthy
do_not_really_call flag — that is, the first subscriber to answer non-null
under the (scope, before_call) key answers such a mapping, which requires
the member name to miss the denylist — the wrapper does not invoke the
original callable and returns the return_value entry of the mapping. -/
theorem c3_suppress_amended (m : List (String × PyVal))
    (hm : pyTruthy (dictGetD m "do_not_really_call" (PyVal.bool false)) = true) :
    (∀ (observers : ObsMap) (targetClass : PyVal) (methodName : String)
      (orig : PyVal → List PyVal → List (String × PyVal) → PyVal)
      (instanceSelf : PyVal) (args : List PyVal) (kwargs : List (String × PyVal)),
      notifyV false observers "before_call"
        [targetClass, PyVal.str methodName, PyVal.tuple args, PyVal.dict kwargs]
        "instance" = PyVal.dict m →
      patched_method false observers targetClass methodName orig instanceSelf args kwargs =
        (dictGetD m "return_value" PyVal.none, false)) ∧
    (∀ (observers : ObsMap) (targetClass : PyVal) (methodName : String)
      (orig : PyVal → List PyVal → List (String × PyVal) → PyVal)
      (clsArg : PyVal) (args : List PyVal) (kwargs : List (String × PyVal)),
      notifyV false observers "before_call"
        [targetClass, PyVal.str methodName, PyVal.tuple args, PyVal.dict kwargs]
        "class" = PyVal.dict m →
      patched_class_method false observers targetClass methodName orig clsArg args kwargs =
        (dictGetD m "return_value" PyVal.none, false)) ∧
    (∀ (observers : ObsMap) (targetClass : PyVal) (methodName : String)
      (orig : List PyVal → List (String × PyVal) → PyVal)
      (args : List PyVal) (kwargs : List (String × PyVal)),
      notifyV false observers "before_call"
        [targetClass, PyVal.str methodName, PyVal.tuple args, PyVal.dict kwargs]
        "class" = PyVal.dict m →
      patched_static_method false observers targetClass methodName orig args kwargs =
        (dictGetD m "return_value" PyVal.none, false)) ∧
    (∀ (observers : ObsMap) (moduleV : PyVal) (functionName : String)
      (orig : List PyVal → List (String × PyVal) → PyVal)
      (args : List PyVal) (kwargs : List (String × PyVal)),
      notifyV false observers "before_call"
        [moduleV, PyVal.str functionName, PyVal.tuple args, PyVal.dict kwargs]
        "module" = PyVal.dict m →
      patched_function false observers moduleV functionName orig args kwargs =
        (dictGetD m "return_value" PyVal.none, false)) := by
  refine ⟨?_, ?_, ?_, ?_⟩
  · intro observers targetClass methodName orig instanceSelf args kwargs h
    simp only [patched_method, h, hm, if_true]
  · intro observers targetClass methodName orig clsArg args kwargs h
    simp only [patched_class_method, h, hm, if_true]
  · intro observers targetClass methodName orig args kwargs h
    simp only [patched_static_method, h, hm, if_true]
  · intro observers moduleV functionName orig args kwargs h
    simp only [patched_function, h, hm, if_true]

/-- C3, witness: for the clean member name area, the suppressing subscriber
prevents the original from running and the wrapper returns 7. -/
theorem c3_witness :
    patched_method false c3obsW (PyVal.obj 1) "area"
      (fun _ _ _ => PyVal.int 99) (PyVal.obj 2) [] [] = (PyVal.int 7, false) :=
  (c3_suppress_amended
    [("do_not_really_call", PyVal.bool true), ("return_value", PyVal.int 7)] rfl).1
    c3obsW (PyVal.obj 1) "area" (fun _ _ _ => PyVal.int 99) (PyVal.obj 2) [] [] rfl

/-- Surviving member names of the get_members loop under no_filter, for any
member list with distinct names: exactly the names that pass the
unconditional underscore filter and the printed-members dedup. The
provenance and Class-scoped SPECIAL_VARIABLE filters are skipped, but the
leading-underscore exclusion is applied before the no_filter test and still
drops names. -/
theorem get_members_go_names (obj : PyClassM) :
    ∀ (l : List (String × Descr)) (printed : List (String × String)),
    (l.map Prod.fst).Nodup →
    ((get_members_go obj true l printed).1.map GMInfo.name) =
      (l.map Prod.fst).filter
        (fun n => !excludedName n && !(decide ((obj.name, n) ∈ printed))) := by
  intro l
  induction l with
  | nil => intro printed _; rfl
  | cons hd rest ih =>
    obtain ⟨n, d⟩ := hd
    intro printed hnd
    simp only [List.map_cons, List.nodup_cons] at hnd
    obtain ⟨hnotin, hndr⟩ := hnd
    by_cases he : excludedName n = true
    · simp only [get_members_go, he, if_true]
      rw [ih printed hndr]
      simp [List.filter_cons, he]
    · replace he : excludedName n = false := by
        cases hx : excludedName n
        · rfl
        · exact absurd hx he
      by_cases hp : (obj.name, n) ∈ printed
      · simp only [get_members_go, he, Bool.false_eq_true, if_false,
          Bool.not_true, Bool.false_and, if_neg (Bool.false_ne_true), hp, if_true]
        rw [ih printed hndr]
        simp [List.filter_cons, he, hp]
      · simp only [get_members_go, he, Bool.false_eq_true, if_false,
          Bool.not_true, Bool.false_and, if_neg (Bool.false_ne_true), hp, List.map_cons]
        rw [ih ((obj.name, n) :: printed) hndr]
        have hcong :
            (rest.map Prod.fst).filter
              (fun x => !excludedName x && !(decide ((obj.name, x) ∈ (obj.name, n) :: printed))) =
            (rest.map Prod.fst).filter
              (fun x => !excludedName x && !(decide ((obj.name, x) ∈ printed))) := by
          apply List.filter_congr
          intro x hx
          have hxn : x ≠ n := fun heq => hnotin (heq ▸ hx)
          simp [List.mem_cons, Prod.mk.injEq, hxn]
        rw [hcong]
        simp [List.filter_cons, he, hp]

/-- C6, counterexample: scanning a class with no_filter set still drops the
member named _hidden. The member is visible to introspection (second
conjunct, with its underscore shape in the third), yet the scan enumerates
only the ordinary member, so the leading-underscore filter is not skipped
by the no_filter flag. -/
theorem c6_counterexample :
    ((get_members obj6W true []).1.map GMInfo.name) = ["visible"] ∧
    ((getmembersM obj6W).map Prod.fst) = ["_hidden", "visible"] ∧
    excludedName "_hidden" = true ∧
    ¬ (("_hidden" : String) ∈ ((get_members obj6W true []).1.map GMInfo.name)) :=
  ⟨rfl, rfl, rfl, by decide⟩

/-- C6, amended: when no_filter is set, the provenance filter and the
Class-scoped SPECIAL_VARIABLE filter are both skipped, so a member survives
the scan exactly when its name passes the leading-underscore exclusion
(which is applied unconditionally, before the no_filter test) and the
(container, name) pair has not already been recorded. -/
theorem c6_no_filter_amended (obj : PyClassM) (printed : List (String × String))
    (hnd : ((getmembersM obj).map Prod.fst).Nodup) :
    ((get_members obj true printed).1.map GMInfo.name) =
      ((getmembersM obj).map Prod.fst).filter
        (fun n => !excludedName n && !(decide ((obj.name, n) ∈ printed))) :=
  get_members_go_names obj (getmembersM obj) printed hnd

/-- C6, witness: on the concrete class the no_filter scan yields exactly the
names passing the underscore filter. -/
theorem c6_witness :
    ((get_members obj6W true []).1.map GMInfo.name) =
      ((getmembersM obj6W).map Prod.fst).filter
        (fun n => !excludedName n &&
          !(decide ((obj6W.name, n) ∈ ([] : List (String × String))))) :=
  c6_no_filter_amended obj6W [] (by decide)

/-- C7, counterexample: the callable helper declares parameters (x, self);
its first parameter is x, not self, yet uses_self judges it to declare self
(the source tests membership of self anywhere in the parameter list) and on
that basis classify_member_level classifies it Instance-scoped. -/
theorem c7_counterexample :
    uses_self d7W = true ∧
    (["x", "self"].headD "") = "x" ∧
    ("x" : String) ≠ "self" ∧
    classify_member_level obj7W "helper" d7W (implemented_in "helper" obj7W)
      (uses_self d7W) = MemberLevel.INSTANCE :=
  ⟨rfl, rfl, by decide, rfl⟩

/-- C7, amended: a callable is judged to declare self exactly when the name
self occurs anywhere among its declared parameters (signature introspection
only, never invocation); and for a callable member whose descriptor is not a
property, staticmethod or classmethod descriptor, the Instance
classification holds exactly on that judgement. -/
theorem c7_uses_self_amended :
    (∀ m : Descr, uses_self m = true ↔
      (isCallableMember m = true ∧
        ∃ ps, memberSig m = some ps ∧ ps.contains "self" = true)) ∧
    (∀ (obj : PyClassM) (n : String) (m : Descr) (impF : Option String),
      isCallableMember m = true →
      isPropDescr (get_member_descriptor obj n) = false →
      isStaticDescr (get_member_descriptor obj n) = false →
      isClassmDescr (get_member_descriptor obj n) = false →
      (classify_member_level obj n m impF (uses_self m) = MemberLevel.INSTANCE ↔
        uses_self m = true)) := by
  constructor
  · intro m
    cases m with
    | prop hasSetter => simp [uses_self, isCallableMember, memberSig]
    | staticm params =>
      cases params with
      | none => simp [uses_self, isCallableMember, memberSig]
      | some ps => simp [uses_self, isCallableMember, memberSig]
    | classm params =>
      cases params with
      | none => simp [uses_self, isCallableMember, memberSig]
      | some ps => simp [uses_self, isCallableMember, memberSig]
    | func params =>
      cases params with
      | none => simp [uses_self, isCallableMember, memberSig]
      | some ps => simp [uses_self, isCallableMember, memberSig]
    | value v => simp [uses_self, isCallableMember, memberSig]
    | clsD => simp [uses_self, isCallableMember, memberSig]
    | modD => simp [uses_self, isCallableMember, memberSig]
  · intro obj n m impF hc hp hs hcm
    simp only [classify_member_level, hp, hs, hcm, hc, Bool.not_true,
      Bool.false_eq_true, if_false]
    cases hu : uses_self m with
    | true => simp
    | false =>
      simp only [Bool.false_eq_true, if_false]
      by_cases ho : (impF == some "object") = true
      · simp [ho]
      · replace ho : (impF == some "object") = false := by
          cases hx : (impF == some "object")
          · rfl
          · exact absurd hx ho
        simp [ho]

/-- C7, witness: applying the amended classification equivalence to the
concrete helper member of obj7W. -/
theorem c7_witness :
    classify_member_level obj7W "helper" d7W (some "Demo7") (uses_self d7W) =
      MemberLevel.INSTANCE :=
  (c7_uses_self_amended.2 obj7W "helper" d7W (some "Demo7") rfl rfl rfl rfl).mpr rfl

/-- C9, counterexample: introspection fails for this pybind11-style callable
and its doc string contains a parenthesized fragment — but on the second
line. The helper returns the unknown-signature sentinel instead of
extracting that line, so the fallback does not search for the first line
containing a parenthesized fragment. -/
theorem c9_counterexample :
    signatureFn c9objW = "(pybind11 function with unknown signature)" ∧
    ((splitLines "Adds two numbers.\nadd(x, y) -> int").any
      (fun l => containsChar l '(' && containsChar l ')')) = true ∧
    signatureFn c9objW ≠ "add(x, y) -> int" :=
  ⟨rfl, rfl, by decide⟩

/-- C9, amended: the signature helper is total and never raises. On success
it returns the introspected signature. When introspection fails with
ValueError or TypeError: for a builtin-typed callable with a doc attribute
it examines only the first line of a nonempty doc string — returning that
line stripped when it contains both an opening and a closing parenthesis
and the pybind11 unknown-signature sentinel otherwise, even when a later
line holds a parenthesized fragment — and for other callables it returns
the builtin-method sentinel. Any other introspection failure yields the
unknown sentinel. -/
theorem c9_signature_amended (o : PyCallableInfo) :
    (∀ s, o.sigOutcome = SigOutcome.ok s → signatureFn o = s) ∧
    (o.sigOutcome = SigOutcome.valueOrTypeError → is_pybind11_function o = false →
      signatureFn o = "(builtin method)") ∧
    (o.sigOutcome = SigOutcome.otherError → signatureFn o = "(unknown)") ∧
    (∀ d, o.sigOutcome = SigOutcome.valueOrTypeError →
      is_pybind11_function o = true → o.doc = some d → (d == "") = false →
      (containsChar ((splitLines d).headD "") '(' &&
        containsChar ((splitLines d).headD "") ')') = true →
      signatureFn o = pyStrip ((splitLines d).headD "")) ∧
    (∀ d, o.sigOutcome = SigOutcome.valueOrTypeError →
      is_pybind11_function o = true → o.doc = some d → (d == "") = false →
      (containsChar ((splitLines d).headD "") '(' &&
        containsChar ((splitLines d).headD "") ')') = false →
      signatureFn o = "(pybind11 function with unknown signature)") := by
  refine ⟨?_, ?_, ?_, ?_, ?_⟩
  · intro s h
    simp [signatureFn, h]
  · intro h hb
    simp [signatureFn, h, hb]
  · intro h
    simp [signatureFn, h]
  · intro d h hb hd hde hpar
    obtain ⟨hp1, hp2⟩ := Bool.and_eq_true_iff.mp hpar
    simp only [List.headD_eq_head?_getD] at hp1 hp2
    simp [signatureFn, h, hb, get_pybind11_signature, hd, hde, hp1, hp2]
  · intro d h hb hd hde hpar
    rcases Bool.and_eq_false_iff.mp hpar with hp | hp
    · simp only [List.headD_eq_head?_getD] at hp
      simp [signatureFn, h, hb, get_pybind11_signature, hd, hde, hp]
    · simp only [List.headD_eq_head?_getD] at hp
      simp [signatureFn, h, hb, get_pybind11_signature, hd, hde, hp]

/-- C9, witness: for a doc whose first line is the parenthesized signature,
the helper returns that line stripped. -/
theorem c9_witness :
    signatureFn c9goodW = pyStrip ((splitLines "add(x, y) -> int\nAdds two numbers.").headD "") :=
  (c9_signature_amended c9goodW).2.2.2.1 "add(x, y) -> int\nAdds two numbers."
    rfl rfl rfl rfl rfl

end MettaPatcher
